import Mathlib

/-!
Verification development for the `daisy::TimerHandle` hardware-timer
abstraction declared in
`src/simple_midi_controller/libraries/DaisyDuino/src/utility/tim.h`.

The repository ships only the public header of `TimerHandle` (the pimpl
`Impl` class and all member-function bodies are absent from the sources),
so the behavior of every operation is modelled from the specification's
contract (spec.md §3, §4.1, §7, §8), while the data model — the peripheral
enumeration and its counter widths, the `OK`/`ERR` result taxonomy, the
`uint32_t` return types of the getters, the nullptr-initialized pimpl of a
default-constructed handle — is taken from the header itself.

Machine integers are modelled as `Nat` with explicit `% 2^32` where a
`uint32_t` value is produced.
-/

set_option autoImplicit false

namespace DaisyTim

/-- `2^32`, one past the largest `uint32_t` value. -/
def U32 : Nat := 4294967296

/-- `0xFFFF`, the largest 16-bit counter value and the largest legal prescaler. -/
def U16MAX : Nat := 65535

/-- `tim.h` lines 41-47: the hardware timer peripherals supported by the handle. -/
inductive Peripheral
  | TIM_2
  | TIM_3
  | TIM_4
  | TIM_5
deriving DecidableEq, Repr

/-- `tim.h` lines 53-57: direction of the auto-reload counter. -/
inductive CounterDir
  | UP
  | DOWN
deriving DecidableEq, Repr

/-- `tim.h` lines 38-61: the configuration supplied at `Init`. -/
structure Config where
  periph : Peripheral
  dir : CounterDir
deriving DecidableEq, Repr

/-- `tim.h` lines 64-68: binary return value of the TIM functions. -/
inductive Result
  | OK
  | ERR
deriving DecidableEq, Repr

/-- `tim.h` lines 43-46: TIM_2 and TIM_5 have 32-bit counters, TIM_3 and
TIM_4 have 16-bit counters; this gives the largest representable counter
value of each instance. -/
def counterMax : Peripheral → Nat
  | .TIM_2 => U32 - 1
  | .TIM_3 => U16MAX
  | .TIM_4 => U16MAX
  | .TIM_5 => U32 - 1

/-- Modelled from the spec: the live state of an initialized handle —
the stored configuration, the mutable period (auto-reload value) and
prescaler, the running flag of the `Running ⇄ Stopped` machine, and the
hardware-resident tick register (spec.md §3, §4.1). -/
structure TimerState where
  config : Config
  period : Nat
  prescaler : Nat
  running : Bool
  tick : Nat
deriving DecidableEq, Repr

/-- `tim.h` line 70: a default-constructed handle has `pimpl_ = nullptr`;
modelled as `uninit`. After a successful `Init` the handle carries a
`TimerState`. -/
inductive TimerHandle
  | uninit
  | ready (s : TimerState)
deriving DecidableEq, Repr

/-- Modelled from the spec: the default period applied by `Init` is the
instance's maximum representable counter value — `0xFFFF` for 16-bit
timers and `0xFFFFFFFF` for 32-bit timers (spec.md §3, header comment at
`tim.h` lines 81-87). -/
def defaultPeriod (p : Peripheral) : Nat := counterMax p

/-- Modelled from the spec (`TimerHandle::Init` has no body in the
sources): binds the handle to the configured peripheral, applies the
default period and prescaler for that peripheral's bit width, and leaves
the handle Initialized(stopped) with the tick register reset (spec.md
§4.1). All enumerated instance/direction pairs are available, so `Init`
succeeds on every `Config`. -/
def Init (cfg : Config) (_h : TimerHandle) : Result × TimerHandle :=
  (.OK, .ready { config := cfg
               , period := defaultPeriod cfg.periph
               , prescaler := 0
               , running := false
               , tick := 0 })

/-- Modelled from the spec: the default configuration reported as a
best-effort value by `GetConfig` on a never-initialized handle
(spec.md §7: pure reads always succeed with best-effort values). -/
def defaultConfig : Config := { periph := .TIM_2, dir := .UP }

/-- Modelled from the spec (`TimerHandle::GetConfig` has no body in the
sources): returns the stored configuration; on a never-initialized handle
it returns a best-effort default (spec.md §4.1, §7). -/
def GetConfig : TimerHandle → Config
  | .uninit => defaultConfig
  | .ready s => s.config

/-- Modelled from the spec (`TimerHandle::SetPeriod` has no body in the
sources): sets the auto-reload value; `ERR` before `Init`, `ERR` leaving
the period unchanged when the request exceeds the bound instance's
counter width, `OK` otherwise (spec.md §4.1, §8). -/
def SetPeriod (ticks : Nat) : TimerHandle → Result × TimerHandle
  | .uninit => (.ERR, .uninit)
  | .ready s =>
      if ticks ≤ counterMax s.config.periph
        then (.OK, .ready { s with period := ticks })
        else (.ERR, .ready s)

/-- Modelled from the spec (`TimerHandle::SetPrescaler` has no body in
the sources): sets the clock divisor, legal range 0..0xFFFF; `ERR` before
`Init` or outside the range, leaving the prescaler unchanged (spec.md
§4.1). -/
def SetPrescaler (v : Nat) : TimerHandle → Result × TimerHandle
  | .uninit => (.ERR, .uninit)
  | .ready s =>
      if v ≤ U16MAX
        then (.OK, .ready { s with prescaler := v })
        else (.ERR, .ready s)

/-- Modelled from the spec (`TimerHandle::Start` has no body in the
sources): enables counting; no-op-safe when already started, `ERR` on a
never-initialized handle (spec.md §4.1). -/
def Start : TimerHandle → Result × TimerHandle
  | .uninit => (.ERR, .uninit)
  | .ready s => (.OK, .ready { s with running := true })

/-- Modelled from the spec (`TimerHandle::Stop` has no body in the
sources): disables counting, freezing the tick register at its current
value; `ERR` on a never-initialized handle (spec.md §4.1). -/
def Stop : TimerHandle → Result × TimerHandle
  | .uninit => (.ERR, .uninit)
  | .ready s => (.OK, .ready { s with running := false })

/-- The prescaler a read observes: 0 as a best-effort value on a
never-initialized handle. -/
def prescalerOf : TimerHandle → Nat
  | .uninit => 0
  | .ready s => s.prescaler

/-- The tick register a read observes: 0 as a best-effort value on a
never-initialized handle. -/
def tickOf : TimerHandle → Nat
  | .uninit => 0
  | .ready s => s.tick

/-- Modelled from the spec (`TimerHandle::GetFreq` has no body in the
sources): `input_clock_hz / (prescaler + 1)` in Hz, reported as a
`uint32_t` (spec.md §3, §4.1; `tim.h` lines 105-106). -/
def GetFreq (inputClockHz : Nat) (h : TimerHandle) : Nat :=
  (inputClockHz / (prescalerOf h + 1)) % U32

/-- Modelled from the spec (`TimerHandle::GetTick` has no body in the
sources): the current raw counter value, reported as a `uint32_t`
(`tim.h` lines 108-112). -/
def GetTick (h : TimerHandle) : Nat :=
  tickOf h % U32

/-- Modelled from the spec (`TimerHandle::GetMs` has no body in the
sources): the tick register value scaled to milliseconds using the tick
frequency, reported as a `uint32_t` (`tim.h` lines 114-119; spec.md
§4.1: a conversion of `GetTick()`'s value using `GetFreq()`). -/
def GetMs (inputClockHz : Nat) (h : TimerHandle) : Nat :=
  (GetTick h * 1000 / GetFreq inputClockHz h) % U32

/-- Modelled from the spec (`TimerHandle::GetUs` has no body in the
sources): the tick register value scaled to microseconds using the tick
frequency, reported as a `uint32_t` (`tim.h` lines 121-126). -/
def GetUs (inputClockHz : Nat) (h : TimerHandle) : Nat :=
  (GetTick h * 1000000 / GetFreq inputClockHz h) % U32

/-- Modelled from the spec: one autonomous increment of the hardware
counter. While running, the tick advances according to
`Config::CounterDir` and wraps at the configured period (UP: period → 0;
DOWN: 0 → period); while stopped, the register is frozen (spec.md §3,
§4.1; `tim.h` lines 108-112). -/
def tickStep (s : TimerState) : TimerState :=
  if s.running then
    match s.config.dir with
    | .UP => { s with tick := if s.period ≤ s.tick then 0 else s.tick + 1 }
    | .DOWN => { s with tick := if s.tick = 0 then s.period else s.tick - 1 }
  else s

/-- `n` autonomous hardware ticks. -/
def advance : Nat → TimerState → TimerState
  | 0, s => s
  | n + 1, s => advance n (tickStep s)

/-- `n` autonomous hardware ticks seen from the handle: a
never-initialized handle is bound to no hardware and does not evolve. -/
def advanceH (n : Nat) : TimerHandle → TimerHandle
  | .uninit => .uninit
  | .ready s => .ready (advance n s)

/-- Modelled from the spec: the tick delta between a baseline read `t0`
and a later read `t1` of a counter wrapping at `period`, accounting for
at most one wrap (spec.md §3, §4.1). -/
def tickDelta (period t0 t1 : Nat) : Nat :=
  (t1 + (period + 1) - t0) % (period + 1)

/-- Modelled from the spec: the exit condition of the Delay busy-wait —
the observed tick delta from the baseline has reached the target
(spec.md §4.1). -/
def delayDone (period t0 del t : Nat) : Bool :=
  decide (del ≤ tickDelta period t0 t)

/-- Modelled from the spec (`TimerHandle::DelayTick` has no body in the
sources): the busy-wait loop. `obs k` is the `k`-th `GetTick` read taken
after capturing the baseline `t0`; the loop spins from read index `i`
until the observed delta reaches `del` and returns the index of the read
on which it exits; `fuel` bounds the modelled number of reads. -/
def spinFrom (period t0 del : Nat) (obs : Nat → Nat) : Nat → Nat → Option Nat
  | _, 0 => none
  | i, fuel + 1 =>
      if delayDone period t0 del (obs i) then some i
      else spinFrom period t0 del obs (i + 1) fuel

/-- Modelled from the spec: `DelayTick(del)` — capture the baseline `t0`
with `GetTick`, then spin until the tick delta reaches `del` (`tim.h`
lines 128-129; spec.md §4.1). -/
def DelayTickRun (period del t0 : Nat) (obs : Nat → Nat) (fuel : Nat) : Option Nat :=
  spinFrom period t0 del obs 0 fuel

/-- Modelled from the spec: the tick-delta equivalent of a duration in
milliseconds at tick frequency `freq` (spec.md §4.1). -/
def msToTicks (freq del : Nat) : Nat := del * (freq / 1000)

/-- Modelled from the spec: the tick-delta equivalent of a duration in
microseconds at tick frequency `freq` (spec.md §4.1). -/
def usToTicks (freq del : Nat) : Nat := del * (freq / 1000000)

/-- Modelled from the spec: `DelayMs(del)` converts the requested
duration into ticks at the current frequency and delegates to the
`DelayTick` spin (`tim.h` lines 131-132; spec.md §4.1). -/
def DelayMsRun (freq period del t0 : Nat) (obs : Nat → Nat) (fuel : Nat) : Option Nat :=
  DelayTickRun period (msToTicks freq del) t0 obs fuel

/-- Modelled from the spec: `DelayUs(del)` converts the requested
duration into ticks at the current frequency and delegates to the
`DelayTick` spin (`tim.h` lines 134-135; spec.md §4.1). -/
def DelayUsRun (freq period del t0 : Nat) (obs : Nat → Nat) (fuel : Nat) : Option Nat :=
  DelayTickRun period (usToTicks freq del) t0 obs fuel

/-- A concrete 32-bit-counter state used to exhibit `uint32_t` wrap of
the scaled time getters: TIM_2 at full period, maximal prescaler, and a
large (un-wrapped) tick value. -/
def wideState : TimerState :=
  { config := { periph := .TIM_2, dir := .UP }
  , period := U32 - 1
  , prescaler := U16MAX
  , running := true
  , tick := 4000000000 }

/-! ### Helper lemmas -/

/-- One hardware tick changes only the tick register. -/
theorem tickStep_fields (s : TimerState) :
    (tickStep s).config = s.config ∧ (tickStep s).period = s.period ∧
    (tickStep s).prescaler = s.prescaler ∧ (tickStep s).running = s.running := by
  by_cases hr : s.running = true
  · cases hd : s.config.dir <;> simp [tickStep, hr, hd]
  · simp [tickStep, hr]

/-- Any number of hardware ticks changes only the tick register. -/
theorem advance_fields (n : Nat) (s : TimerState) :
    (advance n s).config = s.config ∧ (advance n s).period = s.period ∧
    (advance n s).prescaler = s.prescaler ∧ (advance n s).running = s.running := by
  induction n generalizing s with
  | zero => simp [advance]
  | succ n ih =>
      obtain ⟨a1, a2, a3, a4⟩ := tickStep_fields s
      obtain ⟨b1, b2, b3, b4⟩ := ih (tickStep s)
      simp only [advance]
      exact ⟨b1.trans a1, b2.trans a2, b3.trans a3, b4.trans a4⟩

/-- A stopped timer's tick register is frozen across one step. -/
theorem tickStep_stopped {s : TimerState} (h : s.running = false) : tickStep s = s := by
  simp [tickStep, h]

/-- A stopped timer's state is frozen across any number of steps. -/
theorem advance_stopped {s : TimerState} (h : s.running = false) (n : Nat) :
    advance n s = s := by
  induction n with
  | zero => rfl
  | succ n ih => simp only [advance]; rw [tickStep_stopped h, ih]

/-- `GetFreq` on an initialized handle, for a 32-bit input clock. -/
theorem getFreq_ready (clk : Nat) (s : TimerState) (h : clk < U32) :
    GetFreq clk (.ready s) = clk / (s.prescaler + 1) := by
  unfold GetFreq prescalerOf
  exact Nat.mod_eq_of_lt (lt_of_le_of_lt (Nat.div_le_self _ _) h)

/-- Exit analysis of the busy-wait loop: a successful spin returns the
first read index at or after the start index whose delta reached the
target. -/
theorem spinFrom_some (period t0 del : Nat) (obs : Nat → Nat) :
    ∀ fuel i j, spinFrom period t0 del obs i fuel = some j →
      i ≤ j ∧ delayDone period t0 del (obs j) = true ∧
        ∀ m, i ≤ m → m < j → delayDone period t0 del (obs m) = false := by
  intro fuel
  induction fuel with
  | zero => intro i j h; simp [spinFrom] at h
  | succ fuel ih =>
      intro i j h
      by_cases hd : delayDone period t0 del (obs i) = true
      · simp [spinFrom, hd] at h
        subst h
        exact ⟨Nat.le_refl _, hd,
          fun m him hmj => absurd (Nat.lt_of_le_of_lt him hmj) (Nat.lt_irrefl _)⟩
      · have hd' : delayDone period t0 del (obs i) = false := by
          simpa using hd
        simp [spinFrom, hd'] at h
        obtain ⟨hij, hdj, hmin⟩ := ih (i + 1) j h
        refine ⟨Nat.le_trans (Nat.le_succ i) hij, hdj, ?_⟩
        intro m him hmj
        rcases Nat.eq_or_lt_of_le him with heq | hlt
        · exact heq ▸ hd'
        · exact hmin m hlt hmj

/-! ### Claim theorems -/

/-- C1: for every legal prescaler value `p` (0..0xFFFF) on an
initialized handle, after `SetPrescaler(p)` succeeds every subsequent
`GetFreq()` read — at any later hardware tick `n`, with no intervening
`SetPrescaler` — returns `input_clock_hz / (p + 1)`, so repeated reads
all return the same value. -/
theorem setPrescaler_getFreq (clk p n : Nat) (s : TimerState)
    (hp : p ≤ U16MAX) (hclk : clk < U32) :
    (SetPrescaler p (.ready s)).1 = .OK ∧
    GetFreq clk (advanceH n (SetPrescaler p (.ready s)).2) = clk / (p + 1) := by
  have hset : SetPrescaler p (.ready s) = (.OK, .ready { s with prescaler := p }) := by
    simp [SetPrescaler, hp]
  refine ⟨by rw [hset], ?_⟩
  rw [hset]
  show GetFreq clk (.ready (advance n { s with prescaler := p })) = clk / (p + 1)
  rw [getFreq_ready clk _ hclk, (advance_fields n { s with prescaler := p }).2.2.1]

/-- C1 witness: prescaler 7 on a 200 MHz clock gives 25 MHz at any
later read. -/
theorem setPrescaler_getFreq_witness :
    (7 : Nat) ≤ U16MAX ∧ (200000000 : Nat) < U32 ∧
    ((SetPrescaler 7 (.ready { config := { periph := .TIM_2, dir := .UP }
                             , period := 4294967295, prescaler := 0
                             , running := true, tick := 0 })).1 = .OK ∧
      GetFreq 200000000
        (advanceH 5 (SetPrescaler 7 (.ready { config := { periph := .TIM_2, dir := .UP }
                                            , period := 4294967295, prescaler := 0
                                            , running := true, tick := 0 })).2)
        = 200000000 / (7 + 1)) :=
  ⟨by decide, by decide,
    setPrescaler_getFreq 200000000 7 5
      { config := { periph := .TIM_2, dir := .UP }
      , period := 4294967295, prescaler := 0, running := true, tick := 0 }
      (by decide) (by decide)⟩

/-- C2: the pure read operations `GetConfig`, `GetFreq`, `GetTick`,
`GetMs`, `GetUs` are total on every handle state, including a
never-initialized one: each returns a best-effort `uint32_t`-bounded
value (or the stored/default configuration) with no error branch, and on
a never-initialized handle they return the documented best-effort
defaults. -/
theorem reads_always_succeed (clk : Nat) (h : TimerHandle) :
    GetFreq clk h < U32 ∧ GetTick h < U32 ∧ GetMs clk h < U32 ∧ GetUs clk h < U32 ∧
    GetConfig TimerHandle.uninit = defaultConfig ∧
    GetFreq clk TimerHandle.uninit = clk % U32 ∧
    GetTick TimerHandle.uninit = 0 ∧
    GetMs clk TimerHandle.uninit = 0 ∧
    GetUs clk TimerHandle.uninit = 0 := by
  have hpos : 0 < U32 := by decide
  refine ⟨Nat.mod_lt _ hpos, Nat.mod_lt _ hpos, Nat.mod_lt _ hpos, Nat.mod_lt _ hpos,
    rfl, ?_, rfl, ?_, ?_⟩
  · simp [GetFreq, prescalerOf]
  · simp [GetMs, GetTick, tickOf]
  · simp [GetUs, GetTick, tickOf]

/-- C3: on an initialized handle, `SetPeriod(ticks)` returns `OK` and
stores the new period for every `uint32_t` value within the bound
instance's counter range (0..0xFFFF for the 16-bit TIM_3/TIM_4,
0..0xFFFFFFFF for the 32-bit TIM_2/TIM_5), and returns `ERR` leaving the
handle — in particular the previously configured period — unchanged for
every value above that range. -/
theorem setPeriod_range (t : Nat) (s : TimerState) (ht : t < U32) :
    counterMax Peripheral.TIM_2 = U32 - 1 ∧ counterMax Peripheral.TIM_3 = U16MAX ∧
    counterMax Peripheral.TIM_4 = U16MAX ∧ counterMax Peripheral.TIM_5 = U32 - 1 ∧
    (t ≤ counterMax s.config.periph →
      SetPeriod t (.ready s) = (.OK, .ready { s with period := t })) ∧
    (counterMax s.config.periph < t →
      SetPeriod t (.ready s) = (.ERR, .ready s)) := by
  refine ⟨rfl, rfl, rfl, rfl, ?_, ?_⟩
  · intro hle
    simp [SetPeriod, hle]
  · intro hgt
    simp [SetPeriod, Nat.not_le.mpr hgt]

/-- C3 witness: the 16-bit TIM_3 rejects 0x11170 and keeps its period,
and the width table is as stated. -/
theorem setPeriod_range_witness :
    (70000 : Nat) < U32 ∧
    (counterMax Peripheral.TIM_2 = U32 - 1 ∧ counterMax Peripheral.TIM_3 = U16MAX ∧
      counterMax Peripheral.TIM_4 = U16MAX ∧ counterMax Peripheral.TIM_5 = U32 - 1 ∧
      ((70000 : Nat) ≤ counterMax { config := { periph := Peripheral.TIM_3, dir := .UP }
                                  , period := 65535, prescaler := 0
                                  , running := false, tick := 0 : TimerState }.config.periph →
        SetPeriod 70000 (.ready { config := { periph := Peripheral.TIM_3, dir := .UP }
                                , period := 65535, prescaler := 0
                                , running := false, tick := 0 })
          = (.OK, .ready { config := { periph := Peripheral.TIM_3, dir := .UP }
                         , period := 70000, prescaler := 0
                         , running := false, tick := 0 })) ∧
      (counterMax { config := { periph := Peripheral.TIM_3, dir := .UP }
                  , period := 65535, prescaler := 0
                  , running := false, tick := 0 : TimerState }.config.periph < 70000 →
        SetPeriod 70000 (.ready { config := { periph := Peripheral.TIM_3, dir := .UP }
                                , period := 65535, prescaler := 0
                                , running := false, tick := 0 })
          = (.ERR, .ready { config := { periph := Peripheral.TIM_3, dir := .UP }
                          , period := 65535, prescaler := 0
                          , running := false, tick := 0 }))) :=
  ⟨by decide,
    setPeriod_range 70000
      { config := { periph := Peripheral.TIM_3, dir := .UP }
      , period := 65535, prescaler := 0, running := false, tick := 0 }
      (by decide)⟩

/-- C4: on an initialized handle, `SetPrescaler(v)` returns `OK` for
every `uint32_t` value `v` in 0..0xFFFF and `ERR` — leaving the handle
unchanged — for every value above 0xFFFF; a successful call takes effect
immediately: the very next `GetFreq()` read returns
`input_clock_hz / (v + 1)`. -/
theorem setPrescaler_range (clk v : Nat) (s : TimerState)
    (hv : v < U32) (hclk : clk < U32) :
    (v ≤ U16MAX →
      (SetPrescaler v (.ready s)).1 = .OK ∧
      GetFreq clk (SetPrescaler v (.ready s)).2 = clk / (v + 1)) ∧
    (U16MAX < v →
      SetPrescaler v (.ready s) = (.ERR, .ready s)) := by
  constructor
  · intro hle
    have hset : SetPrescaler v (.ready s) = (.OK, .ready { s with prescaler := v }) := by
      simp [SetPrescaler, hle]
    rw [hset]
    exact ⟨rfl, getFreq_ready clk _ hclk⟩
  · intro hgt
    simp [SetPrescaler, Nat.not_le.mpr hgt]

/-- C4 witness: the out-of-range value 0x10000 is rejected and the
handle is unchanged on a 200 MHz clock. -/
theorem setPrescaler_range_witness :
    (65536 : Nat) < U32 ∧ (200000000 : Nat) < U32 ∧
    (((65536 : Nat) ≤ U16MAX →
      (SetPrescaler 65536 (.ready { config := { periph := .TIM_2, dir := .UP }
                                  , period := 4294967295, prescaler := 0
                                  , running := false, tick := 0 })).1 = .OK ∧
      GetFreq 200000000
        (SetPrescaler 65536 (.ready { config := { periph := .TIM_2, dir := .UP }
                                    , period := 4294967295, prescaler := 0
                                    , running := false, tick := 0 })).2
        = 200000000 / (65536 + 1)) ∧
     (U16MAX < (65536 : Nat) →
      SetPrescaler 65536 (.ready { config := { periph := .TIM_2, dir := .UP }
                                 , period := 4294967295, prescaler := 0
                                 , running := false, tick := 0 })
        = (.ERR, .ready { config := { periph := .TIM_2, dir := .UP }
                        , period := 4294967295, prescaler := 0
                        , running := false, tick := 0 }))) :=
  ⟨by decide, by decide,
    setPrescaler_range 200000000 65536
      { config := { periph := .TIM_2, dir := .UP }
      , period := 4294967295, prescaler := 0, running := false, tick := 0 }
      (by decide) (by decide)⟩

/-- C5: on a handle on which `Init` was never called (the
default-constructed, nullptr-pimpl handle), `Start`, `Stop`,
`SetPeriod`, and `SetPrescaler` each return `ERR` and leave the handle —
and hence any hardware it would denote — unchanged, for every argument
value. -/
theorem uninit_mutators_err (t v : Nat) :
    Start TimerHandle.uninit = (.ERR, .uninit) ∧
    Stop TimerHandle.uninit = (.ERR, .uninit) ∧
    SetPeriod t TimerHandle.uninit = (.ERR, .uninit) ∧
    SetPrescaler v TimerHandle.uninit = (.ERR, .uninit) :=
  ⟨rfl, rfl, rfl, rfl⟩

/-- C9: on an initialized handle `Start` returns `OK`, and a second
`Start` is a no-op: it returns `OK` and leaves the handle exactly as the
first `Start` left it; on a never-initialized handle `Start` returns
`ERR`. -/
theorem start_idempotent (s : TimerState) :
    (Start (.ready s)).1 = .OK ∧
    Start (Start (.ready s)).2 = (.OK, (Start (.ready s)).2) ∧
    (Start TimerHandle.uninit).1 = .ERR :=
  ⟨rfl, rfl, rfl⟩

/-- C6: on an initialized running handle, `Stop()` returns `OK` and
freezes the tick register: every later `GetTick()` read — after any
number `n` of would-be hardware ticks — returns the same value as at the
moment of the stop; a subsequent `Start()` returns `OK` and restores the
exact pre-stop state (same configuration, period, prescaler, and the
frozen tick value, not zero), so counting resumes from the frozen
value. -/
theorem stop_freezes_start_resumes (s : TimerState) (n : Nat) (hrun : s.running = true) :
    (Stop (.ready s)).1 = .OK ∧
    GetTick (advanceH n (Stop (.ready s)).2) = GetTick (.ready s) ∧
    Start (Stop (.ready s)).2 = (.OK, .ready s) := by
  have hstop : Stop (.ready s) = (.OK, .ready { s with running := false }) := rfl
  refine ⟨rfl, ?_, ?_⟩
  · rw [hstop]
    show GetTick (.ready (advance n { s with running := false })) = GetTick (.ready s)
    rw [advance_stopped rfl n]
    simp [GetTick, tickOf]
  · rw [hstop]
    show (Result.OK, TimerHandle.ready { s with running := true })
        = (Result.OK, TimerHandle.ready s)
    cases s with
    | mk config period prescaler running tick =>
        simp at hrun
        simp [hrun]

/-- C6 witness: a running TIM_2 state with tick 1234 is frozen across 9
hardware ticks by `Stop` and restored exactly by `Start`. -/
theorem stop_freezes_start_resumes_witness :
    ({ config := { periph := Peripheral.TIM_2, dir := .UP }
     , period := 4294967295, prescaler := 0
     , running := true, tick := 1234 : TimerState }.running = true) ∧
    ((Stop (.ready { config := { periph := Peripheral.TIM_2, dir := .UP }
                   , period := 4294967295, prescaler := 0
                   , running := true, tick := 1234 })).1 = .OK ∧
      GetTick (advanceH 9 (Stop (.ready { config := { periph := Peripheral.TIM_2, dir := .UP }
                                        , period := 4294967295, prescaler := 0
                                        , running := true, tick := 1234 })).2)
        = GetTick (.ready { config := { periph := Peripheral.TIM_2, dir := .UP }
                          , period := 4294967295, prescaler := 0
                          , running := true, tick := 1234 }) ∧
      Start (Stop (.ready { config := { periph := Peripheral.TIM_2, dir := .UP }
                          , period := 4294967295, prescaler := 0
                          , running := true, tick := 1234 })).2
        = (.OK, .ready { config := { periph := Peripheral.TIM_2, dir := .UP }
                       , period := 4294967295, prescaler := 0
                       , running := true, tick := 1234 })) :=
  ⟨by decide,
    stop_freezes_start_resumes
      { config := { periph := Peripheral.TIM_2, dir := .UP }
      , period := 4294967295, prescaler := 0, running := true, tick := 1234 }
      9 (by decide)⟩

/-- C7: a Delay spin that exits (`DelayTickRun … = some i`) never
returns early — the observed tick delta from the baseline, accounting
for at most one wrap, has reached the requested target `del` at the exit
read `i`, and at every earlier read `m < i` it had not — so the call
blocks at least `del` ticks' worth of time and returns exactly once, at
the first read satisfying the target; `DelayMs`/`DelayUs` are the same
spin with the duration converted to ticks at the current frequency. -/
theorem delay_blocks_until_target (freq period del t0 i m fuel : Nat) (obs : Nat → Nat)
    (h : DelayTickRun period del t0 obs fuel = some i) (hm : m < i) :
    del ≤ tickDelta period t0 (obs i) ∧
    tickDelta period t0 (obs m) < del ∧
    DelayMsRun freq period del t0 obs fuel
      = DelayTickRun period (msToTicks freq del) t0 obs fuel ∧
    DelayUsRun freq period del t0 obs fuel
      = DelayTickRun period (usToTicks freq del) t0 obs fuel := by
  obtain ⟨-, hdone, hmin⟩ := spinFrom_some period t0 del obs fuel 0 i h
  have hnot := hmin m (Nat.zero_le m) hm
  refine ⟨of_decide_eq_true hdone, ?_, rfl, rfl⟩
  have : ¬ del ≤ tickDelta period t0 (obs m) := by
    simpa [delayDone] using hnot
  exact Nat.not_le.mp this

/-- C7 witness: with period 0xFFFF, baseline 0xFFFE, and reads that wrap
through 0, a target delta of 3 is reached at read index 2 (after the
wrap) and not before. -/
theorem delay_blocks_until_target_witness :
    DelayTickRun 65535 3 65534 (fun k => (65535 + k) % 65536) 10 = some 2 ∧
    (0 : Nat) < 2 ∧
    ((3 : Nat) ≤ tickDelta 65535 65534 ((fun k => (65535 + k) % 65536) 2) ∧
      tickDelta 65535 65534 ((fun k => (65535 + k) % 65536) 0) < 3 ∧
      DelayMsRun 1000000 65535 3 65534 (fun k => (65535 + k) % 65536) 10
        = DelayTickRun 65535 (msToTicks 1000000 3) 65534 (fun k => (65535 + k) % 65536) 10 ∧
      DelayUsRun 1000000 65535 3 65534 (fun k => (65535 + k) % 65536) 10
        = DelayTickRun 65535 (usToTicks 1000000 3) 65534 (fun k => (65535 + k) % 65536) 10) :=
  ⟨by decide, by decide,
    delay_blocks_until_target 1000000 65535 3 65534 2 0 10
      (fun k => (65535 + k) % 65536) (by decide) (by decide)⟩

/-- C8: on an initialized running handle whose tick register is within
the configured period (which fits the counter), one hardware tick moves
`GetTick` forward by exactly one for `CounterDir::UP` — wrapping from
the period to 0 — and backward by exactly one for `CounterDir::DOWN` —
wrapping from 0 to the period — so reads at increasing real time are
non-decreasing (UP) or non-increasing (DOWN) modulo one wrap, and the
in-range invariant is preserved. -/
theorem getTick_monotone_mod_wrap (s : TimerState)
    (hrun : s.running = true) (hle : s.tick ≤ s.period) (hper : s.period < U32) :
    (s.config.dir = .UP →
      (GetTick (.ready s) < s.period ∧
        GetTick (.ready (tickStep s)) = GetTick (.ready s) + 1) ∨
      (GetTick (.ready s) = s.period ∧ GetTick (.ready (tickStep s)) = 0)) ∧
    (s.config.dir = .DOWN →
      (0 < GetTick (.ready s) ∧
        GetTick (.ready (tickStep s)) = GetTick (.ready s) - 1) ∨
      (GetTick (.ready s) = 0 ∧ GetTick (.ready (tickStep s)) = s.period)) ∧
    (tickStep s).tick ≤ (tickStep s).period := by
  have htick : GetTick (.ready s) = s.tick :=
    Nat.mod_eq_of_lt (Nat.lt_of_le_of_lt hle hper)
  have hmod : ∀ u, u ≤ s.period → u % U32 = u :=
    fun u hu => Nat.mod_eq_of_lt (Nat.lt_of_le_of_lt hu hper)
  refine ⟨?_, ?_, ?_⟩
  · intro hd
    by_cases hw : s.period ≤ s.tick
    · right
      have heq : s.tick = s.period := Nat.le_antisymm hle hw
      constructor
      · rw [htick, heq]
      · show (tickStep s).tick % U32 = 0
        simp [tickStep, hrun, hd, hw]
    · left
      have hlt : s.tick < s.period := Nat.lt_of_not_le hw
      constructor
      · rw [htick]; exact hlt
      · show (tickStep s).tick % U32 = s.tick % U32 + 1
        have hstep : (tickStep s).tick = s.tick + 1 := by
          simp [tickStep, hrun, hd, hw]
        rw [hstep, hmod _ hle, hmod _ hlt]
  · intro hd
    by_cases hz : s.tick = 0
    · right
      constructor
      · rw [htick, hz]
      · show (tickStep s).tick % U32 = s.period
        have hstep : (tickStep s).tick = s.period := by
          simp [tickStep, hrun, hd, hz]
        rw [hstep, hmod _ (Nat.le_refl _)]
    · left
      have hpos : 0 < s.tick := Nat.pos_of_ne_zero hz
      constructor
      · rw [htick]; exact hpos
      · show (tickStep s).tick % U32 = s.tick % U32 - 1
        have hstep : (tickStep s).tick = s.tick - 1 := by
          simp [tickStep, hrun, hd, hz]
        rw [hstep, hmod _ hle, hmod _ (Nat.le_trans (Nat.sub_le _ _) hle)]
  · have hrest := tickStep_fields s
    rw [hrest.2.1]
    by_cases hd : s.config.dir = CounterDir.UP
    · by_cases hw : s.period ≤ s.tick
      · have : (tickStep s).tick = 0 := by simp [tickStep, hrun, hd, hw]
        rw [this]; exact Nat.zero_le _
      · have : (tickStep s).tick = s.tick + 1 := by simp [tickStep, hrun, hd, hw]
        rw [this]; exact Nat.succ_le_of_lt (Nat.lt_of_not_le hw)
    · have hd' : s.config.dir = CounterDir.DOWN := by
        cases hdd : s.config.dir
        · exact absurd hdd hd
        · rfl
      by_cases hz : s.tick = 0
      · have : (tickStep s).tick = s.period := by simp [tickStep, hrun, hd', hz]
        rw [this]
      · have : (tickStep s).tick = s.tick - 1 := by simp [tickStep, hrun, hd', hz]
        rw [this]; exact Nat.le_trans (Nat.sub_le _ _) hle

/-- C8 witness: a running 16-bit up-counter sitting at its period 0xFFFF
wraps to 0 on the next tick, staying in range. -/
theorem getTick_monotone_mod_wrap_witness :
    ({ config := { periph := Peripheral.TIM_3, dir := .UP }
     , period := 65535, prescaler := 0
     , running := true, tick := 65535 : TimerState }.running = true) ∧
    ({ config := { periph := Peripheral.TIM_3, dir := .UP }
     , period := 65535, prescaler := 0
     , running := true, tick := 65535 : TimerState }.tick ≤ 65535) ∧
    ((65535 : Nat) < U32) ∧
    ((({ config := { periph := Peripheral.TIM_3, dir := .UP }
       , period := 65535, prescaler := 0
       , running := true, tick := 65535 : TimerState }.config.dir = CounterDir.UP →
        (GetTick (.ready { config := { periph := Peripheral.TIM_3, dir := .UP }
                         , period := 65535, prescaler := 0
                         , running := true, tick := 65535 }) < 65535 ∧
          GetTick (.ready (tickStep { config := { periph := Peripheral.TIM_3, dir := .UP }
                                    , period := 65535, prescaler := 0
                                    , running := true, tick := 65535 }))
            = GetTick (.ready { config := { periph := Peripheral.TIM_3, dir := .UP }
                              , period := 65535, prescaler := 0
                              , running := true, tick := 65535 }) + 1) ∨
        (GetTick (.ready { config := { periph := Peripheral.TIM_3, dir := .UP }
                         , period := 65535, prescaler := 0
                         , running := true, tick := 65535 }) = 65535 ∧
          GetTick (.ready (tickStep { config := { periph := Peripheral.TIM_3, dir := .UP }
                                    , period := 65535, prescaler := 0
                                    , running := true, tick := 65535 })) = 0)) ∧
      ({ config := { periph := Peripheral.TIM_3, dir := .UP }
       , period := 65535, prescaler := 0
       , running := true, tick := 65535 : TimerState }.config.dir = CounterDir.DOWN →
        (0 < GetTick (.ready { config := { periph := Peripheral.TIM_3, dir := .UP }
                             , period := 65535, prescaler := 0
                             , running := true, tick := 65535 }) ∧
          GetTick (.ready (tickStep { config := { periph := Peripheral.TIM_3, dir := .UP }
                                    , period := 65535, prescaler := 0
                                    , running := true, tick := 65535 }))
            = GetTick (.ready { config := { periph := Peripheral.TIM_3, dir := .UP }
                              , period := 65535, prescaler := 0
                              , running := true, tick := 65535 }) - 1) ∨
        (GetTick (.ready { config := { periph := Peripheral.TIM_3, dir := .UP }
                         , period := 65535, prescaler := 0
                         , running := true, tick := 65535 }) = 0 ∧
          GetTick (.ready (tickStep { config := { periph := Peripheral.TIM_3, dir := .UP }
                                    , period := 65535, prescaler := 0
                                    , running := true, tick := 65535 })) = 65535)) ∧
      (tickStep { config := { periph := Peripheral.TIM_3, dir := .UP }
                , period := 65535, prescaler := 0
                , running := true, tick := 65535 }).tick
        ≤ (tickStep { config := { periph := Peripheral.TIM_3, dir := .UP }
                    , period := 65535, prescaler := 0
                    , running := true, tick := 65535 }).period)) :=
  ⟨by decide, by decide, by decide,
    getTick_monotone_mod_wrap
      { config := { periph := Peripheral.TIM_3, dir := .UP }
      , period := 65535, prescaler := 0, running := true, tick := 65535 }
      (by decide) (by decide) (by decide)⟩

/-- C10: every time query — `GetFreq`, `GetTick`, `GetMs`, `GetUs` —
reports a `uint32_t`, i.e. a value reduced modulo 2^32; concretely, on a
32-bit TIM_2 whose tick register has not wrapped (tick ≤ period), the
microsecond scaling of the tick value exceeds 0xFFFFFFFF and `GetUs`
therefore returns it wrapped modulo 2^32, differing from the unreduced
scaling. -/
theorem getters_report_uint32 (clk : Nat) (h : TimerHandle) :
    GetFreq clk h < U32 ∧ GetTick h < U32 ∧ GetMs clk h < U32 ∧ GetUs clk h < U32 ∧
    wideState.tick ≤ wideState.period ∧
    U32 ≤ GetTick (.ready wideState) * 1000000 / GetFreq 200000000 (.ready wideState) ∧
    GetUs 200000000 (.ready wideState)
      = GetTick (.ready wideState) * 1000000 / GetFreq 200000000 (.ready wideState) % U32 ∧
    GetUs 200000000 (.ready wideState)
      ≠ GetTick (.ready wideState) * 1000000 / GetFreq 200000000 (.ready wideState) := by
  have hpos : 0 < U32 := by decide
  exact ⟨Nat.mod_lt _ hpos, Nat.mod_lt _ hpos, Nat.mod_lt _ hpos, Nat.mod_lt _ hpos,
    by decide, by decide, rfl, by decide⟩

end DaisyTim
